import Mathlib

/-!
Verification development for the geospatial risk-scoring pipeline
`generate_risk_csv.py`.

Shallow embedding conventions:
* Planar polygon geometry is discretized: a region is a `Finset ℕ` of unit
  cells; geometric intersection is `Finset.inter`, intersection area is
  `Finset.card`, and two regions intersect iff their intersection is
  nonempty.  This models shapely's `overlay`/`sjoin(predicate=intersects)`
  faithfully at the level the pipeline uses them (areas of intersections,
  the intersects predicate), including the fact that the area of a
  multi-piece intersection is the sum over its pieces.
* The planar distance from a ZIP centroid to the unioned fault geometry is
  an external shapely computation; it is carried as per-ZIP input data
  (`faultDist : ℚ`) and fed to the bucketing logic, which is translated
  from the source.
* Reading a vector source is modelled by an `Option`: `none` is an
  unreadable source (the reader raises), `some v` is the loaded content.
* A pandas cell that may hold either a number or a string (the
  `DISTRICT_ID` column after `fillna('UNKNOWN')`) is a `CellValue`.
* The run's externally visible filesystem effect is a trace of `FsOp`s.
-/

/-- Errors that abort the pipeline run, mirroring the error taxonomy:
unreadable source, missing identifier/attribute column, failed
reprojection. -/
inductive PipeErr where
  | loadError : PipeErr
  | schemaError : PipeErr
  | projectionError : PipeErr
deriving DecidableEq, Repr

/-- A pandas cell holding either an integer or a string (the
`Flood_Control_District_ID` column holds district ids, or the string
"UNKNOWN" after `fillna`). -/
inductive CellValue where
  | intVal : Int → CellValue
  | strVal : String → CellValue
deriving DecidableEq, Repr

/-- Decimal digit accumulation over a character list: `none` as soon as
a non-digit character appears. -/
def parseDigitsAux : List Char → ℕ → Option ℕ
  | [], acc => some acc
  | c :: cs, acc =>
    if c.isDigit then parseDigitsAux cs (acc * 10 + (c.toNat - 48)) else none

/-- The sign-and-digits core of Python's `int(str)`: an optional leading
sign followed by at least one decimal digit; anything else (such as
"UNKNOWN") fails, modelled as `none`. -/
def strToInt? (s : String) : Option Int :=
  match s.toList with
  | [] => none
  | '-' :: cs => if cs = [] then none else (parseDigitsAux cs 0).map (fun n => -(n : Int))
  | '+' :: cs => if cs = [] then none else (parseDigitsAux cs 0).map (fun n => (n : Int))
  | cs => (parseDigitsAux cs 0).map (fun n => (n : Int))

/-- Python's `int(x)` coercion as used in `get_flood_risk_info_by_id`:
an integer coerces to itself, a string coerces iff it parses as an
integer literal (so `int("UNKNOWN")` raises, modelled as `none`). -/
def pyInt : CellValue → Option Int
  | .intVal n => some n
  | .strVal s => strToInt? s

/-- A feature of the ZIP boundary source: 5-character ZIP string, polygon
geometry, and the planar distance (meters, EPSG:3310) from the feature's
centroid to the unioned fault geometry. -/
structure ZipFeature where
  zip : String
  geom : Finset ℕ
  faultDist : ℚ
deriving DecidableEq

/-- A feature of the flood-control-district source: `DIST_NAME`,
`DISTRICT_ID`, polygon geometry. -/
structure FloodFeature where
  distName : String
  distId : CellValue
  geom : Finset ℕ
deriving DecidableEq

/-- A feature of the wildfire hazard-zone source: `HAZ_CLASS` label and
polygon geometry. -/
structure WildfireZone where
  hazClass : String
  geom : Finset ℕ
deriving DecidableEq

/-- The fixed Alameda County ZIP allow-list from the source. -/
def alameda_zips : List String :=
  ["94501", "94502", "94536", "94538", "94539", "94541", "94542", "94544", "94545",
   "94546", "94550", "94551", "94552", "94555", "94560", "94566", "94568", "94577",
   "94578", "94579", "94580", "94586", "94587", "94601", "94602", "94603", "94605",
   "94606", "94607", "94608", "94609", "94610", "94611", "94612", "94618", "94619",
   "94621", "94706"]

/-- Output artifact path from the source. -/
def OUTPUT_CSV : String := "output/zip_risk_scores.csv"

/-- ZIP Filter (line 44): keep the rows whose `ZIP` is in the allow-list,
preserving source order. -/
def zipFilter (rows : List ZipFeature) : List ZipFeature :=
  rows.filter (fun r => decide (r.zip ∈ alameda_zips))

/-- One row of `flood_intersections` (lines 48-49): a (ZIP feature,
flood feature) pair whose geometries intersect, with the area of the
geometric intersection. -/
structure FloodRow where
  zip : String
  distName : String
  distId : CellValue
  area : ℕ
deriving DecidableEq

/-- The pairwise overlay `gpd.overlay(zip_gdf, flood_gdf,
how='intersection')` followed by `intersect_area = geometry.area`
(lines 48-49): one row per intersecting (ZIP, district) pair, carrying
the total area of the intersection (summed over its pieces, as shapely's
`.area` does on a multi-part geometry). -/
def floodOverlay (fz : List ZipFeature) (floods : List FloodFeature) : List FloodRow :=
  fz.flatMap (fun z =>
    (floods.filter (fun f => decide (z.geom ∩ f.geom).Nonempty)).map
      (fun f => ⟨z.zip, f.distName, f.distId, (z.geom ∩ f.geom).card⟩))

/-- The row a `groupby(...).idxmax()` selects from a group: the first row
attaining the maximum `intersect_area` (line 50). -/
def bestRow : List FloodRow → Option FloodRow
  | [] => none
  | r :: rs =>
    match bestRow rs with
    | none => some r
    | some b => if b.area > r.area then some b else some r

/-- Dominant flood district for one ZIP code (lines 50-51): the first
maximal-area row among the overlay rows grouped under that ZIP code. -/
def dominantFor (ov : List FloodRow) (code : String) : Option FloodRow :=
  bestRow (ov.filter (fun r => decide (r.zip = code)))

/-- The `hazard_rank_map` dictionary (lines 58-65). -/
def hazard_rank_map (c : String) : Option ℕ :=
  if c = "Non-Wildland/Non-Urban" then some 0
  else if c = "Urban Unzoned" then some 1
  else if c = "Low" then some 2
  else if c = "Moderate" then some 3
  else if c = "High" then some 4
  else if c = "Very High" then some 5
  else none

/-- Rank of a `HAZ_CLASS` label: `.map(hazard_rank_map).fillna(0)`
(line 69) — unmapped classes become rank 0. -/
def hazardRank (c : String) : ℕ := (hazard_rank_map c).getD 0

/-- The `inv_hazard_map` inverse dictionary (line 73). -/
def inv_hazard_map (r : ℕ) : Option String :=
  if r = 0 then some "Non-Wildland/Non-Urban"
  else if r = 1 then some "Urban Unzoned"
  else if r = 2 then some "Low"
  else if r = 3 then some "Moderate"
  else if r = 4 then some "High"
  else if r = 5 then some "Very High"
  else none

/-- Maximum of a list of naturals, `none` on the empty list (pandas
`groupby(...).max()` yields NaN on an all-NaN group). -/
def maxNat? : List ℕ → Option ℕ
  | [] => none
  | n :: ns =>
    match maxNat? ns with
    | none => some n
    | some m => some (Nat.max n m)

/-- Wildfire resolution for one ZIP code (lines 71-72): the spatial join
`sjoin(zip_gdf, wildfire_gdf, how='left', predicate='intersects')`
produces one row per intersecting (ZIP feature, zone) pair;
`groupby('ZIP')['hazard_rank'].max()` pools all join rows sharing the
ZIP code and takes the maximum rank, `none` when no zone intersects. -/
def wildfireRankFor (fz : List ZipFeature) (zones : List WildfireZone) (code : String) : Option ℕ :=
  maxNat? ((fz.filter (fun z => decide (z.zip = code))).flatMap (fun z =>
    (zones.filter (fun w => decide (z.geom ∩ w.geom).Nonempty)).map
      (fun w => hazardRank w.hazClass)))

/-- The earthquake bucketing `earthquake_risk` (lines 88-99): score and
explanation from the centroid-to-fault distance in meters. -/
def earthquake_risk (dist : ℚ) : ℕ × String :=
  if dist < 500 then
    (10, "Very high earthquake risk due to proximity (<0.5 km) to active fault lines.")
  else if dist < 1000 then
    (8, "High earthquake risk due to proximity (<1 km) to active fault lines.")
  else if dist < 5000 then
    (5, "Moderate earthquake risk due to proximity (1–5 km) to active fault lines.")
  else if dist < 10000 then
    (3, "Low earthquake risk due to moderate distance (5–10 km) from active fault lines.")
  else
    (1, "Minimal earthquake risk due to distance >10 km from active fault lines.")

/-- One entry of `flood_risk_map_by_id`. -/
structure FloodInfo where
  score : ℕ
  explanation : String
  chatbot_prompt : String
deriving DecidableEq

/-- The `"UNKNOWN"` entry of `flood_risk_map_by_id` (lines 173-177). -/
def floodUnknownInfo : FloodInfo :=
  ⟨0, "Flood risk unknown.",
   "Flood risk data unavailable for your area; please stay alert to local weather reports."⟩

/-- The integer-keyed entries of `flood_risk_map_by_id` (lines 122-172). -/
def flood_risk_map_by_id (k : Int) : Option FloodInfo :=
  if k = 142 then some ⟨4,
    "High flood risk due to steep hills causing rapid runoff, dense urban areas, and historic flooding along San Lorenzo Creek.",
    "Prepare for flooding risks including flash floods and urban runoff. Follow local evacuation routes and secure important belongings."⟩
  else if k = 152 then some ⟨3,
    "Moderate to high risk from tidal influence combined with creek overflow in a heavily urbanized area.",
    "Expect tidal flooding and creek overflow. Stay informed of tide schedules and emergency alerts."⟩
  else if k = 144 then some ⟨7,
    "Moderate risk from steep hillsides and flash flooding potential in parts of Oakland and Piedmont.",
    "Watch for flash floods in steep areas. Avoid low-lying regions during storms."⟩
  else if k = 145 then some ⟨3,
    "Medium risk influenced by Alameda Creek’s flow and levee system; flooding possible in heavy storms.",
    "Flooding possible from Alameda Creek; have a plan for heavy storms and levee breaches."⟩
  else if k = 146 then some ⟨6,
    "Moderate risk from bay-adjacent floodplains and increasing sea level rise impacts.",
    "Prepare for coastal flooding and sea level rise; monitor weather and tides."⟩
  else if k = 147 then some ⟨5,
    "Lower risk suburban areas with flash flood potential from smaller creeks.",
    "Flash floods possible near smaller creeks; clear drainage and avoid flood-prone spots."⟩
  else if k = 148 then some ⟨8,
    "Generally low risk due to more rural terrain and less urban development, but some large drainage areas carry water downstream rapidly.",
    "While overall flood risk is lower, large drainages may overflow. Prepare in advance during major storms."⟩
  else if k = 149 then some ⟨2,
    "Generally low risk due to more rural terrain and less urban development.",
    "Low flood risk; standard precautions recommended."⟩
  else if k = 153 then some ⟨6,
    "Moderate to high risk from urban flash flooding in narrow canyons and overwhelmed drainage.",
    "Urban flash flooding possible; avoid narrow canyons and keep drainage clear."⟩
  else if k = 151 then some ⟨5,
    "Moderate risk from steep slopes, creek overflows, and occasional landslides.",
    "Be cautious of flooding, landslides, and creek overflow during storms."⟩
  else none

/-- The lookup `get_flood_risk_info_by_id` (lines 180-185): coerce the
district id with `int(...)`; a coercion failure uses the `"UNKNOWN"`
key, and `.get(key, map["UNKNOWN"])` falls back to the `"UNKNOWN"`
entry on an absent key. -/
def get_flood_risk_info_by_id (v : CellValue) : FloodInfo :=
  match pyInt v with
  | some k => (flood_risk_map_by_id k).getD floodUnknownInfo
  | none => floodUnknownInfo

/-- One entry of `wildfire_risk_map`. -/
structure WfInfo where
  score : ℕ
  chatbot_prompt : String
deriving DecidableEq

/-- The `"Unknown"` entry of `wildfire_risk_map` (lines 218-221). -/
def wildfireUnknownInfo : WfInfo :=
  ⟨0, "Wildfire risk data unavailable; stay informed via local sources."⟩

/-- The `wildfire_risk_map` dictionary (lines 193-222), including its
`"Unknown"` key. -/
def wildfire_risk_map (lvl : String) : Option WfInfo :=
  if lvl = "Non-Wildland/Non-Urban" then some ⟨1,
    "Low wildfire risk; maintain defensible space and follow local fire safety guidelines."⟩
  else if lvl = "Urban Unzoned" then some ⟨1,
    "Low wildfire risk; maintain defensible space and follow local fire safety guidelines."⟩
  else if lvl = "Low" then some ⟨3,
    "Low to moderate wildfire risk; keep vegetation trimmed and prepare for fire season."⟩
  else if lvl = "Moderate" then some ⟨5,
    "Moderate wildfire risk; prepare evacuation plans and emergency kits."⟩
  else if lvl = "High" then some ⟨8,
    "High wildfire risk; stay alert during fire season and follow local advisories."⟩
  else if lvl = "Very High" then some ⟨10,
    "Very high wildfire risk; implement all safety measures and evacuate promptly if advised."⟩
  else if lvl = "Unknown" then some wildfireUnknownInfo
  else none

/-- The `Flood_Control_District` column value for one ZIP code after the
left merge and `fillna('UNKNOWN')` (lines 110-117). -/
def floodNameFor (fz : List ZipFeature) (floods : List FloodFeature) (code : String) : String :=
  match dominantFor (floodOverlay fz floods) code with
  | some r => r.distName
  | none => "UNKNOWN"

/-- The `Flood_Control_District_ID` column value for one ZIP code after
the left merge and `fillna('UNKNOWN')` (lines 110-119). -/
def floodIdFor (fz : List ZipFeature) (floods : List FloodFeature) (code : String) : CellValue :=
  match dominantFor (floodOverlay fz floods) code with
  | some r => r.distId
  | none => .strVal "UNKNOWN"

/-- Wildfire hazard level for one ZIP code as it reaches `master_df`:
the pooled maximum rank mapped back through `inv_hazard_map` (line 74),
with a missing rank (no intersecting zone, NaN) or a rank outside the
inverse map becoming "Unknown" through `fillna('Unknown')` (lines 113,
118). -/
def wildfireLevelFor (fz : List ZipFeature) (zones : List WildfireZone) (code : String) : String :=
  ((wildfireRankFor fz zones code).bind inv_hazard_map).getD "Unknown"

/-- One row of `master_df` after the merges, the `fillna` defaults and
the two category lookups (lines 110-226). -/
structure ZipRiskRecord where
  zip : String
  eqScore : ℕ
  eqExpl : String
  floodDistrict : String
  floodDistrictId : CellValue
  wildfireLevel : String
  floodScore : ℕ
  floodExpl : String
  floodPrompt : String
  wildfireScore : ℕ
  wildfirePrompt : String
deriving DecidableEq

/-- Builds one `master_df` row for a filtered ZIP feature: earthquake
bucket from its centroid distance (line 102), dominant flood district
joined by ZIP code with `fillna('UNKNOWN')` (lines 110-119), wildfire
level joined by ZIP code with `fillna('Unknown')` — the rank is mapped
back through `inv_hazard_map`, a rank whose inverse image is missing
becoming NaN and hence "Unknown" (lines 74, 113, 118) — then the two
category lookups (lines 187-190, 224-226). -/
def buildRow (fz : List ZipFeature) (floods : List FloodFeature) (zones : List WildfireZone)
    (z : ZipFeature) : ZipRiskRecord :=
  { zip := z.zip
    eqScore := (earthquake_risk z.faultDist).1
    eqExpl := (earthquake_risk z.faultDist).2
    floodDistrict := floodNameFor fz floods z.zip
    floodDistrictId := floodIdFor fz floods z.zip
    wildfireLevel := wildfireLevelFor fz zones z.zip
    floodScore := (get_flood_risk_info_by_id (floodIdFor fz floods z.zip)).score
    floodExpl := (get_flood_risk_info_by_id (floodIdFor fz floods z.zip)).explanation
    floodPrompt := (get_flood_risk_info_by_id (floodIdFor fz floods z.zip)).chatbot_prompt
    wildfireScore := ((wildfire_risk_map (wildfireLevelFor fz zones z.zip)).getD wildfireUnknownInfo).score
    wildfirePrompt := ((wildfire_risk_map (wildfireLevelFor fz zones z.zip)).getD wildfireUnknownInfo).chatbot_prompt }

/-- The merged table `master_df`: one row per filtered ZIP feature, in
filter order (lines 44, 110-114). -/
def masterTable (zrows : List ZipFeature) (floods : List FloodFeature)
    (zones : List WildfireZone) : List ZipRiskRecord :=
  let fz := zipFilter zrows
  fz.map (buildRow fz floods zones)

/-- The `output_columns` list (lines 229-240). -/
def output_columns : List String :=
  ["ZIP",
   "Earthquake_Risk_Score",
   "Earthquake_Risk_Explanation",
   "Flood_Control_District",
   "Wildfire_Hazard_Level",
   "Flood_Risk_Score",
   "Flood_Risk_Explanation",
   "Flood_Chatbot_Prompt",
   "Wildfire_Risk_Score",
   "Wildfire_Chatbot_Prompt"]

/-- Serialization of one record under `output_columns` order: string
cells are written verbatim (pandas `to_csv` on an object column), the
numeric scores via decimal rendering. -/
def csvRow (r : ZipRiskRecord) : List String :=
  [r.zip, toString r.eqScore, r.eqExpl, r.floodDistrict, r.wildfireLevel,
   toString r.floodScore, r.floodExpl, r.floodPrompt,
   toString r.wildfireScore, r.wildfirePrompt]

/-- The CSV table written by `to_csv(OUTPUT_CSV, index=False)`
(line 242): header row then one row per record. -/
def writeCsv (table : List ZipRiskRecord) : List (List String) :=
  output_columns :: table.map csvRow

/-- Externally visible filesystem operations of a run. -/
inductive FsOp where
  | mkdirOutput : FsOp
  | write : String → List (List String) → FsOp
  | rename : String → String → FsOp
deriving DecidableEq

/-- The Geometry Loader `load_geodata` (lines 23-27): reading an
unreadable source raises; a readable source is returned as loaded, with
no check on its feature count. -/
def load_geodata {α : Type} (src : Option α) : Except PipeErr α :=
  match src with
  | none => .error .loadError
  | some v => .ok v

/-- The loaded ZIP source: which identifier columns it has (line 39-42)
and its feature rows. -/
structure RawZipSource where
  hasZcta : Bool
  hasZip : Bool
  rows : List ZipFeature
deriving DecidableEq

/-- The loaded wildfire source: whether it has a `HAZ_CLASS` column
(lines 66-67) and its zone features. -/
structure RawWildfireSource where
  hasHazClass : Bool
  zones : List WildfireZone
deriving DecidableEq

/-- Inputs of one run: the four geometry sources (`none` = unreadable)
and whether reprojection to EPSG:3310 succeeds. -/
structure PipelineInput where
  zipSource : Option RawZipSource
  floodSource : Option (List FloodFeature)
  wildfireSource : Option RawWildfireSource
  faultSource : Option Unit
  projOk : Bool

/-- The whole `main` (lines 29-243) as a trace semantics: result is the
error that aborted the run (or `none` on success) together with the
filesystem operations performed before returning.  `os.makedirs` runs
first; the four loads follow; the ZIP identifier check (line 41), the
`HAZ_CLASS` check (line 66) and reprojection (lines 80-81) each abort
on failure; a successful run ends with the single `to_csv` write to
`OUTPUT_CSV`. -/
def runPipeline (inp : PipelineInput) : Option PipeErr × List FsOp :=
  match load_geodata inp.zipSource with
  | .error e => (some e, [FsOp.mkdirOutput])
  | .ok zsrc =>
    match load_geodata inp.floodSource with
    | .error e => (some e, [FsOp.mkdirOutput])
    | .ok floods =>
      match load_geodata inp.wildfireSource with
      | .error e => (some e, [FsOp.mkdirOutput])
      | .ok wsrc =>
        match load_geodata inp.faultSource with
        | .error e => (some e, [FsOp.mkdirOutput])
        | .ok _ =>
          if ¬ (zsrc.hasZcta || zsrc.hasZip) then (some .schemaError, [FsOp.mkdirOutput])
          else if ¬ wsrc.hasHazClass then (some .schemaError, [FsOp.mkdirOutput])
          else if ¬ inp.projOk then (some .projectionError, [FsOp.mkdirOutput])
          else
            (none, [FsOp.mkdirOutput,
                    FsOp.write OUTPUT_CSV (writeCsv (masterTable zsrc.rows floods wsrc.zones))])

/-- A trace performs an atomic write-then-rename publication of the
output artifact: some temporary path distinct from the artifact is
written and then renamed onto the artifact path. -/
def writeThenRename (t : List FsOp) : Prop :=
  ∃ tmp content, tmp ≠ OUTPUT_CSV ∧ FsOp.write tmp content ∈ t ∧
    FsOp.rename tmp OUTPUT_CSV ∈ t

/-! Helper lemmas shared by several claims. -/

/-- Filtering distributes over `flatMap`. -/
theorem filter_flatMap_eq {α β : Type} (l : List α) (g : α → List β) (p : β → Bool) :
    (l.flatMap g).filter p = l.flatMap (fun a => (g a).filter p) := by
  induction l with
  | nil => rfl
  | cons a t ih => simp [List.flatMap_cons, List.filter_append, ih]

/-- Unfolding equation of `bestRow` on a group whose tail selects nothing. -/
theorem bestRow_cons_none {r : FloodRow} {rs : List FloodRow} (h : bestRow rs = none) :
    bestRow (r :: rs) = some r := by
  unfold bestRow
  rw [h]

/-- Unfolding equation of `bestRow` on a group whose tail selects a row. -/
theorem bestRow_cons_some {r b : FloodRow} {rs : List FloodRow} (h : bestRow rs = some b) :
    bestRow (r :: rs) = if b.area > r.area then some b else some r := by
  unfold bestRow
  rw [h]

/--`bestRow` is `none` exactly on the empty group. -/
theorem bestRow_eq_none {l : List FloodRow} : bestRow l = none ↔ l = [] := by
  cases l with
  | nil => simp [bestRow]
  | cons r rs =>
    cases h : bestRow rs with
    | none => simp [bestRow_cons_none h]
    | some b =>
      rw [bestRow_cons_some h]
      by_cases hgt : b.area > r.area <;> simp [hgt]

/-- The selected row belongs to its group. -/
theorem bestRow_mem {l : List FloodRow} {r : FloodRow} (h : bestRow l = some r) : r ∈ l := by
  induction l generalizing r with
  | nil => simp [bestRow] at h
  | cons a t ih =>
    cases hb : bestRow t with
    | none =>
      rw [bestRow_cons_none hb, Option.some.injEq] at h
      subst h
      exact List.mem_cons_self a t
    | some b =>
      rw [bestRow_cons_some hb] at h
      by_cases hgt : b.area > a.area
      · rw [if_pos hgt, Option.some.injEq] at h
        subst h
        exact List.mem_cons_of_mem a (ih hb)
      · rw [if_neg hgt, Option.some.injEq] at h
        subst h
        exact List.mem_cons_self a t

/-- The selected row has maximal `intersect_area` in its group. -/
theorem bestRow_le {l : List FloodRow} {r : FloodRow} (h : bestRow l = some r) :
    ∀ x ∈ l, x.area ≤ r.area := by
  induction l generalizing r with
  | nil => simp
  | cons a t ih =>
    intro x hx
    cases hb : bestRow t with
    | none =>
      have ht : t = [] := bestRow_eq_none.mp hb
      subst ht
      rw [bestRow_cons_none hb, Option.some.injEq] at h
      subst h
      rcases List.mem_cons.mp hx with rfl | hx'
      · exact le_rfl
      · cases hx'
    | some b =>
      rw [bestRow_cons_some hb] at h
      by_cases hgt : b.area > a.area
      · rw [if_pos hgt, Option.some.injEq] at h
        subst h
        rcases List.mem_cons.mp hx with rfl | hx'
        · exact le_of_lt hgt
        · exact ih hb x hx'
      · rw [if_neg hgt, Option.some.injEq] at h
        subst h
        rcases List.mem_cons.mp hx with rfl | hx'
        · exact le_rfl
        · exact le_trans (ih hb x hx') (Nat.le_of_not_lt hgt)

/-- Under unique ZIP codes, a code-keyed group of a per-feature `flatMap`
collapses to the block of the single feature carrying that code. -/
theorem flatMap_code_single {β : Type} (fz : List ZipFeature) (z : ZipFeature)
    (g : ZipFeature → List β)
    (hnd : (fz.map ZipFeature.zip).Nodup) (hz : z ∈ fz) :
    (fz.flatMap (fun x => if x.zip = z.zip then g x else [])) = g z := by
  induction fz with
  | nil => cases hz
  | cons a t ih =>
    simp only [List.map_cons, List.nodup_cons] at hnd
    rcases List.mem_cons.mp hz with rfl | hzt
    · rw [List.flatMap_cons, if_pos rfl]
      have h2 : (t.flatMap fun x => if x.zip = z.zip then g x else []) = [] := by
        refine List.flatMap_eq_nil_iff.mpr (fun x hx => ?_)
        have hne : x.zip ≠ z.zip := by
          intro he
          exact hnd.1 (he ▸ List.mem_map_of_mem ZipFeature.zip hx)
        rw [if_neg hne]
      rw [h2, List.append_nil]
    · have hne : a.zip ≠ z.zip := by
        intro he
        exact hnd.1 (he ▸ List.mem_map_of_mem ZipFeature.zip hzt)
      rw [List.flatMap_cons, if_neg hne, List.nil_append]
      exact ih hnd.2 hzt

/-- Under unique ZIP codes, filtering the feature list by one code keeps
exactly the single feature carrying it. -/
theorem filter_code_single (fz : List ZipFeature) (z : ZipFeature)
    (hnd : (fz.map ZipFeature.zip).Nodup) (hz : z ∈ fz) :
    fz.filter (fun x => decide (x.zip = z.zip)) = [z] := by
  induction fz with
  | nil => cases hz
  | cons a t ih =>
    simp only [List.map_cons, List.nodup_cons] at hnd
    rcases List.mem_cons.mp hz with rfl | hzt
    · rw [List.filter_cons_of_pos (by simp)]
      have h2 : t.filter (fun x => decide (x.zip = z.zip)) = [] := by
        refine List.filter_eq_nil_iff.mpr (fun x hx => ?_)
        simp only [decide_eq_true_eq]
        intro he
        exact hnd.1 (he ▸ List.mem_map_of_mem ZipFeature.zip hx)
      rw [h2]
    · have hne : a.zip ≠ z.zip := by
        intro he
        exact hnd.1 (he ▸ List.mem_map_of_mem ZipFeature.zip hzt)
      rw [List.filter_cons_of_neg (by simp [hne])]
      exact ih hnd.2 hzt

/-- Under unique ZIP codes, the overlay rows grouped under a filtered
feature's code are exactly that feature's own intersection rows. -/
theorem floodOverlay_group (fz : List ZipFeature) (floods : List FloodFeature) (z : ZipFeature)
    (hnd : (fz.map ZipFeature.zip).Nodup) (hz : z ∈ fz) :
    (floodOverlay fz floods).filter (fun r => decide (r.zip = z.zip)) =
      (floods.filter (fun f => decide (z.geom ∩ f.geom).Nonempty)).map
        (fun f => ⟨z.zip, f.distName, f.distId, (z.geom ∩ f.geom).card⟩) := by
  unfold floodOverlay
  rw [filter_flatMap_eq]
  have hpt : ∀ x ∈ fz,
      ((floods.filter (fun f => decide (x.geom ∩ f.geom).Nonempty)).map
        (fun f => FloodRow.mk x.zip f.distName f.distId (x.geom ∩ f.geom).card)).filter
          (fun r => decide (r.zip = z.zip)) =
      (if x.zip = z.zip then
        (floods.filter (fun f => decide (x.geom ∩ f.geom).Nonempty)).map
          (fun f => FloodRow.mk x.zip f.distName f.distId (x.geom ∩ f.geom).card)
       else []) := by
    intro x _
    rw [List.filter_map]
    by_cases hxz : x.zip = z.zip
    · simp [Function.comp, hxz]
    · simp [Function.comp, hxz]
  rw [List.flatMap_congr hpt, flatMap_code_single fz z _ hnd hz]

/-- Unfolding equation of `maxNat?` when the tail is empty-maximum. -/
theorem maxNat?_cons_none {n : ℕ} {ns : List ℕ} (h : maxNat? ns = none) :
    maxNat? (n :: ns) = some n := by
  unfold maxNat?
  rw [h]

/-- Unfolding equation of `maxNat?` when the tail has a maximum. -/
theorem maxNat?_cons_some {n m : ℕ} {ns : List ℕ} (h : maxNat? ns = some m) :
    maxNat? (n :: ns) = some (Nat.max n m) := by
  unfold maxNat?
  rw [h]

/-- `maxNat?` is `none` exactly on the empty list. -/
theorem maxNat?_eq_none {l : List ℕ} : maxNat? l = none ↔ l = [] := by
  cases l with
  | nil => simp [maxNat?]
  | cons n ns =>
    cases h : maxNat? ns with
    | none => simp [maxNat?_cons_none h]
    | some b => simp [maxNat?_cons_some h]

/-- The value of `maxNat?` is attained by a list element. -/
theorem maxNat?_mem {l : List ℕ} {m : ℕ} (h : maxNat? l = some m) : m ∈ l := by
  induction l generalizing m with
  | nil => simp [maxNat?] at h
  | cons n ns ih =>
    cases hb : maxNat? ns with
    | none =>
      rw [maxNat?_cons_none hb, Option.some.injEq] at h
      subst h
      exact List.mem_cons_self n ns
    | some b =>
      rw [maxNat?_cons_some hb, Option.some.injEq] at h
      rcases Nat.le_total n b with hle | hle
      · have hmb : m = b := by
          rw [← h]
          exact Nat.max_eq_right hle
        subst hmb
        exact List.mem_cons_of_mem n (ih hb)
      · have hmn : m = n := by
          rw [← h]
          exact Nat.max_eq_left hle
        subst hmn
        exact List.mem_cons_self m ns

/-- The value of `maxNat?` bounds every list element. -/
theorem maxNat?_le {l : List ℕ} {m : ℕ} (h : maxNat? l = some m) : ∀ n ∈ l, n ≤ m := by
  induction l generalizing m with
  | nil => simp
  | cons n ns ih =>
    intro x hx
    cases hb : maxNat? ns with
    | none =>
      have hns : ns = [] := maxNat?_eq_none.mp hb
      subst hns
      rw [maxNat?_cons_none hb, Option.some.injEq] at h
      subst h
      rcases List.mem_cons.mp hx with rfl | hx'
      · exact le_rfl
      · cases hx'
    | some b =>
      rw [maxNat?_cons_some hb, Option.some.injEq] at h
      subst h
      rcases List.mem_cons.mp hx with rfl | hx'
      · exact Nat.le_max_left x b
      · exact le_trans (ih hb x hx') (Nat.le_max_right n b)

/-- Prepending a strictly larger element moves the maximum to it. -/
theorem maxNat?_cons_gt {l : List ℕ} {m n : ℕ} (h : maxNat? l = some m) (hgt : m < n) :
    maxNat? (n :: l) = some n := by
  rw [maxNat?_cons_some h]
  exact congrArg some (Nat.max_eq_left (le_of_lt hgt))

/-- Every `HAZ_CLASS` rank is at most 5. -/
theorem hazardRank_le_five (c : String) : hazardRank c ≤ 5 := by
  unfold hazardRank hazard_rank_map
  split <;> try simp
  split <;> try simp
  split <;> try simp
  split <;> try simp
  split <;> try simp
  split <;> simp

/-- Ranks 0 to 5 round-trip through the inverse enumeration. -/
theorem inv_hazard_map_roundtrip (r : ℕ) (hr : r ≤ 5) :
    ∃ s, inv_hazard_map r = some s ∧ hazardRank s = r := by
  interval_cases r
  · exact ⟨"Non-Wildland/Non-Urban", by decide, by decide⟩
  · exact ⟨"Urban Unzoned", by decide, by decide⟩
  · exact ⟨"Low", by decide, by decide⟩
  · exact ⟨"Moderate", by decide, by decide⟩
  · exact ⟨"High", by decide, by decide⟩
  · exact ⟨"Very High", by decide, by decide⟩

/-- Merged flood columns when a dominant district row exists. -/
theorem flood_cols_some {fz : List ZipFeature} {floods : List FloodFeature} {code : String}
    {r : FloodRow} (h : dominantFor (floodOverlay fz floods) code = some r) :
    floodNameFor fz floods code = r.distName ∧ floodIdFor fz floods code = r.distId := by
  unfold floodNameFor floodIdFor
  rw [h]
  exact ⟨rfl, rfl⟩

/-- Merged flood columns when no overlay row carries the ZIP code. -/
theorem flood_cols_none {fz : List ZipFeature} {floods : List FloodFeature} {code : String}
    (h : dominantFor (floodOverlay fz floods) code = none) :
    floodNameFor fz floods code = "UNKNOWN" ∧
    floodIdFor fz floods code = CellValue.strVal "UNKNOWN" := by
  unfold floodNameFor floodIdFor
  rw [h]
  exact ⟨rfl, rfl⟩

/-- Under unique ZIP codes, the pooled wildfire rank of a feature's code
is the maximum rank over the zones intersecting that feature alone. -/
theorem wildfireRankFor_single (fz : List ZipFeature) (zones : List WildfireZone)
    (z : ZipFeature) (hnd : (fz.map ZipFeature.zip).Nodup) (hz : z ∈ fz) :
    wildfireRankFor fz zones z.zip =
      maxNat? ((zones.filter (fun w => decide (z.geom ∩ w.geom).Nonempty)).map
        (fun w => hazardRank w.hazClass)) := by
  unfold wildfireRankFor
  rw [filter_code_single fz z hnd hz]
  simp [List.flatMap_cons]

/-- Every run either succeeds, writing the table once directly to the
artifact path, or aborts having performed only the directory creation. -/
theorem runPipeline_cases (inp : PipelineInput) :
    ((runPipeline inp).1 = none ∧ ∃ tbl, (runPipeline inp).2 =
      [FsOp.mkdirOutput, FsOp.write OUTPUT_CSV tbl]) ∨
    ((runPipeline inp).1 ≠ none ∧ (runPipeline inp).2 = [FsOp.mkdirOutput]) := by
  rcases inp with ⟨zs, fs, ws, fas, pk⟩
  cases zs <;> cases fs <;> cases ws <;> cases fas <;>
    simp [runPipeline, load_geodata]
  split_ifs <;> simp

/-! Claim theorems. -/

/-- C2: for every ZIP centroid at planar distance d meters from the fault
union, the earthquake score is 10 for d < 500, 8 for 500 ≤ d < 1000, 5 for
1000 ≤ d < 5000, 3 for 5000 ≤ d < 10000 and 1 for d ≥ 10000; the buckets
are left-inclusive, so exactly 500 gives 8 and exactly 1000 gives 5. -/
theorem earthquake_bucket_boundaries (d : ℚ) :
    (d < 500 → (earthquake_risk d).1 = 10) ∧
    (500 ≤ d → d < 1000 → (earthquake_risk d).1 = 8) ∧
    (1000 ≤ d → d < 5000 → (earthquake_risk d).1 = 5) ∧
    (5000 ≤ d → d < 10000 → (earthquake_risk d).1 = 3) ∧
    (10000 ≤ d → (earthquake_risk d).1 = 1) := by
  unfold earthquake_risk
  refine ⟨fun h1 => ?_, fun h1 h2 => ?_, fun h1 h2 => ?_, fun h1 h2 => ?_, fun h1 => ?_⟩
  · rw [if_pos h1]
  · rw [if_neg (not_lt.mpr h1), if_pos h2]
  · rw [if_neg (not_lt.mpr (le_trans (by norm_num) h1)), if_neg (not_lt.mpr h1), if_pos h2]
  · rw [if_neg (not_lt.mpr (le_trans (by norm_num) h1)),
      if_neg (not_lt.mpr (le_trans (by norm_num) h1)), if_neg (not_lt.mpr h1), if_pos h2]
  · rw [if_neg (not_lt.mpr (le_trans (by norm_num) h1)),
      if_neg (not_lt.mpr (le_trans (by norm_num) h1)),
      if_neg (not_lt.mpr (le_trans (by norm_num) h1)), if_neg (not_lt.mpr h1)]

/-- Witness for C2: one concrete distance per bucket, including the two
boundary distances the claim singles out. -/
theorem earthquake_bucket_boundaries_witness :
    (earthquake_risk 250).1 = 10 ∧ (earthquake_risk 500).1 = 8 ∧
    (earthquake_risk 1000).1 = 5 ∧ (earthquake_risk 5000).1 = 3 ∧
    (earthquake_risk 10000).1 = 1 :=
  ⟨(earthquake_bucket_boundaries 250).1 (by norm_num),
   (earthquake_bucket_boundaries 500).2.1 (by norm_num) (by norm_num),
   (earthquake_bucket_boundaries 1000).2.2.1 (by norm_num) (by norm_num),
   (earthquake_bucket_boundaries 5000).2.2.2.1 (by norm_num) (by norm_num),
   (earthquake_bucket_boundaries 10000).2.2.2.2 (by norm_num)⟩

/-- C6 counterexample: a readable source with zero features is returned
as an empty geometry collection with no error, refuting the claimed
zero-feature failure of the Geometry Loader. -/
theorem load_geodata_zero_features_ok :
    load_geodata (some ([] : List ℕ)) = Except.ok [] ∧ ([] : List ℕ).length = 0 :=
  ⟨rfl, rfl⟩

/-- C6 amended: the Geometry Loader aborts the run with a load error
whenever any of the four sources is unreadable, and a readable source is
returned exactly as loaded — including when it has zero features. -/
theorem load_geodata_amended (inp : PipelineInput)
    (h : inp.zipSource = none ∨ inp.floodSource = none ∨ inp.wildfireSource = none ∨
      inp.faultSource = none) :
    (runPipeline inp).1 = some PipeErr.loadError ∧
    ∀ (α : Type) (rows : List α), load_geodata (some rows) = Except.ok rows := by
  refine ⟨?_, fun α rows => rfl⟩
  rcases inp with ⟨zs, fs, ws, fas, pk⟩
  cases zs <;> cases fs <;> cases ws <;> cases fas <;>
    simp_all [runPipeline, load_geodata]

/-- Witness for C6 amended: a run whose ZIP source is unreadable aborts
with a load error. -/
theorem load_geodata_amended_witness :
    (runPipeline ⟨none, none, none, none, true⟩).1 = some PipeErr.loadError ∧
    ∀ (α : Type) (rows : List α), load_geodata (some rows) = Except.ok rows :=
  load_geodata_amended ⟨none, none, none, none, true⟩ (Or.inl rfl)

/-- C7: the merger's category lookups are total: a district id that does
not coerce to an integer, or coerces to an integer absent from the flood
table, yields exactly the "UNKNOWN" entry (score 0, its explanation and
prompt); a hazard label absent from the wildfire table yields exactly the
"Unknown" entry (score 0 and its prompt).  Both lookups are total Lean
functions built from defaulted dictionary access, mirroring the
`try/except` plus `.get(key, default)` code paths that never raise. -/
theorem lookup_default_fallback (v : CellValue) (lvl : String) :
    (floodUnknownInfo = ⟨0, "Flood risk unknown.",
      "Flood risk data unavailable for your area; please stay alert to local weather reports."⟩) ∧
    (wildfireUnknownInfo =
      ⟨0, "Wildfire risk data unavailable; stay informed via local sources."⟩) ∧
    (pyInt v = none → get_flood_risk_info_by_id v = floodUnknownInfo) ∧
    (∀ k : Int, pyInt v = some k → flood_risk_map_by_id k = none →
      get_flood_risk_info_by_id v = floodUnknownInfo) ∧
    (wildfire_risk_map lvl = none →
      (wildfire_risk_map lvl).getD wildfireUnknownInfo = wildfireUnknownInfo) := by
  refine ⟨rfl, rfl, fun h => ?_, fun k hk hmiss => ?_, fun h => ?_⟩
  · unfold get_flood_risk_info_by_id
    rw [h]
  · unfold get_flood_risk_info_by_id
    rw [hk]
    show (flood_risk_map_by_id k).getD floodUnknownInfo = floodUnknownInfo
    rw [hmiss]
    rfl
  · rw [h]
    rfl

/-- Witness for C7: the post-`fillna` string id, an absent integer id and
an absent hazard label each hit the corresponding default entry. -/
theorem lookup_default_fallback_witness :
    get_flood_risk_info_by_id (CellValue.strVal "UNKNOWN") = floodUnknownInfo ∧
    get_flood_risk_info_by_id (CellValue.intVal 999) = floodUnknownInfo ∧
    (wildfire_risk_map "Foothill").getD wildfireUnknownInfo = wildfireUnknownInfo :=
  ⟨(lookup_default_fallback (CellValue.strVal "UNKNOWN") "Foothill").2.2.1 (by decide),
   (lookup_default_fallback (CellValue.intVal 999) "Foothill").2.2.2.1 999 rfl (by decide),
   (lookup_default_fallback (CellValue.intVal 999) "Foothill").2.2.2.2 (by decide)⟩

/-- C1: for every filtered ZIP intersecting at least one flood-district
polygon, the resolved district name and id are those of a district whose
total intersected area with the ZIP is largest among all districts (any
maximal one on a tie); a filtered ZIP intersecting no district gets
"UNKNOWN" as both name and id.  Each flood feature is one district, so a
feature's intersection area is the district's total intersected area. -/
theorem flood_dominant_selection (zrows : List ZipFeature) (floods : List FloodFeature)
    (zones : List WildfireZone) (z : ZipFeature)
    (hnd : ((zipFilter zrows).map ZipFeature.zip).Nodup)
    (hz : z ∈ zipFilter zrows) :
    ((∃ f ∈ floods, (z.geom ∩ f.geom).Nonempty) →
      ∃ f ∈ floods, (z.geom ∩ f.geom).Nonempty ∧
        (buildRow (zipFilter zrows) floods zones z).floodDistrict = f.distName ∧
        (buildRow (zipFilter zrows) floods zones z).floodDistrictId = f.distId ∧
        ∀ f' ∈ floods, (z.geom ∩ f'.geom).card ≤ (z.geom ∩ f.geom).card) ∧
    ((∀ f ∈ floods, ¬ (z.geom ∩ f.geom).Nonempty) →
      (buildRow (zipFilter zrows) floods zones z).floodDistrict = "UNKNOWN" ∧
      (buildRow (zipFilter zrows) floods zones z).floodDistrictId =
        CellValue.strVal "UNKNOWN") := by
  have hgrp := floodOverlay_group (zipFilter zrows) floods z hnd hz
  constructor
  · rintro ⟨f0, hf0, hne0⟩
    have hmem0 : (⟨z.zip, f0.distName, f0.distId, (z.geom ∩ f0.geom).card⟩ : FloodRow) ∈
        (floodOverlay (zipFilter zrows) floods).filter (fun r => decide (r.zip = z.zip)) := by
      rw [hgrp]
      exact List.mem_map_of_mem _ (List.mem_filter.mpr ⟨hf0, by simpa using hne0⟩)
    cases hbr : dominantFor (floodOverlay (zipFilter zrows) floods) z.zip with
    | none =>
      exfalso
      have hnil : (floodOverlay (zipFilter zrows) floods).filter
          (fun r => decide (r.zip = z.zip)) = [] := bestRow_eq_none.mp hbr
      rw [hnil] at hmem0
      cases hmem0
    | some r =>
      have hr_mem : r ∈ (floodOverlay (zipFilter zrows) floods).filter
          (fun r => decide (r.zip = z.zip)) := bestRow_mem hbr
      rw [hgrp] at hr_mem
      rcases List.mem_map.mp hr_mem with ⟨f, hf_filt, hf_eq⟩
      rcases List.mem_filter.mp hf_filt with ⟨hf_mem, hf_dec⟩
      have hcols := flood_cols_some hbr
      refine ⟨f, hf_mem, by simpa using hf_dec, ?_, ?_, ?_⟩
      · exact hcols.1.trans (congrArg FloodRow.distName hf_eq).symm
      · exact hcols.2.trans (congrArg FloodRow.distId hf_eq).symm
      · intro f' hf'
        by_cases hne' : (z.geom ∩ f'.geom).Nonempty
        · have hrow' : (⟨z.zip, f'.distName, f'.distId, (z.geom ∩ f'.geom).card⟩ : FloodRow) ∈
              (floodOverlay (zipFilter zrows) floods).filter
                (fun r => decide (r.zip = z.zip)) := by
            rw [hgrp]
            exact List.mem_map_of_mem _ (List.mem_filter.mpr ⟨hf', by simpa using hne'⟩)
          have hle := bestRow_le hbr _ hrow'
          have harea : r.area = (z.geom ∩ f.geom).card := (congrArg FloodRow.area hf_eq).symm
          exact harea ▸ hle
        · rw [Finset.not_nonempty_iff_eq_empty.mp hne']
          simp
  · intro hall
    have hfil : floods.filter (fun f => decide (z.geom ∩ f.geom).Nonempty) = [] :=
      List.filter_eq_nil_iff.mpr (fun f hf => by simpa using hall f hf)
    have hbr : dominantFor (floodOverlay (zipFilter zrows) floods) z.zip = none := by
      show bestRow ((floodOverlay (zipFilter zrows) floods).filter
        (fun r => decide (r.zip = z.zip))) = none
      rw [hgrp, hfil]
      rfl
    exact flood_cols_none hbr

/-- Witness for C1: a ZIP overlapping district A with area 1 and district
B with area 2 resolves to a maximal-area district. -/
theorem flood_dominant_selection_witness :
    ∃ f ∈ ([⟨"District A", CellValue.intVal 142, {0}⟩,
            ⟨"District B", CellValue.intVal 152, {1, 2}⟩] : List FloodFeature),
      ((⟨"94501", {0, 1, 2}, 600⟩ : ZipFeature).geom ∩ f.geom).Nonempty ∧
      (buildRow (zipFilter [⟨"94501", {0, 1, 2}, 600⟩])
        [⟨"District A", CellValue.intVal 142, {0}⟩,
         ⟨"District B", CellValue.intVal 152, {1, 2}⟩] []
        ⟨"94501", {0, 1, 2}, 600⟩).floodDistrict = f.distName ∧
      (buildRow (zipFilter [⟨"94501", {0, 1, 2}, 600⟩])
        [⟨"District A", CellValue.intVal 142, {0}⟩,
         ⟨"District B", CellValue.intVal 152, {1, 2}⟩] []
        ⟨"94501", {0, 1, 2}, 600⟩).floodDistrictId = f.distId ∧
      ∀ f' ∈ ([⟨"District A", CellValue.intVal 142, {0}⟩,
               ⟨"District B", CellValue.intVal 152, {1, 2}⟩] : List FloodFeature),
        ((⟨"94501", {0, 1, 2}, 600⟩ : ZipFeature).geom ∩ f'.geom).card ≤
          ((⟨"94501", {0, 1, 2}, 600⟩ : ZipFeature).geom ∩ f.geom).card :=
  (flood_dominant_selection [⟨"94501", {0, 1, 2}, 600⟩]
    [⟨"District A", CellValue.intVal 142, {0}⟩,
     ⟨"District B", CellValue.intVal 152, {1, 2}⟩] []
    ⟨"94501", {0, 1, 2}, 600⟩ (by decide) (by decide)).1
    ⟨⟨"District A", CellValue.intVal 142, {0}⟩, by decide, by decide⟩

/-- C3: for every filtered ZIP, the resolved wildfire hazard level is the
inverse-enumeration image of the maximum rank over intersecting zones
(unrecognized classes ranking 0, recognized ones at their enumeration
value, never a missing value); a ZIP intersecting no zone gets
"Unknown". -/
theorem wildfire_level_resolution (zrows : List ZipFeature) (floods : List FloodFeature)
    (zones : List WildfireZone) (z : ZipFeature)
    (hnd : ((zipFilter zrows).map ZipFeature.zip).Nodup)
    (hz : z ∈ zipFilter zrows) :
    (∀ c : String, hazard_rank_map c = none → hazardRank c = 0) ∧
    (∀ (c : String) (r : ℕ), hazard_rank_map c = some r → hazardRank c = r) ∧
    ((∃ w ∈ zones, (z.geom ∩ w.geom).Nonempty) →
      ∃ m : ℕ,
        (∃ w ∈ zones, (z.geom ∩ w.geom).Nonempty ∧ hazardRank w.hazClass = m) ∧
        (∀ w ∈ zones, (z.geom ∩ w.geom).Nonempty → hazardRank w.hazClass ≤ m) ∧
        inv_hazard_map m = some ((buildRow (zipFilter zrows) floods zones z).wildfireLevel)) ∧
    ((∀ w ∈ zones, ¬ (z.geom ∩ w.geom).Nonempty) →
      (buildRow (zipFilter zrows) floods zones z).wildfireLevel = "Unknown") := by
  have hsingle := wildfireRankFor_single (zipFilter zrows) zones z hnd hz
  refine ⟨fun c h => by unfold hazardRank; rw [h]; rfl,
    fun c r h => by unfold hazardRank; rw [h]; rfl, ?_, ?_⟩
  · rintro ⟨w0, hw0, hne0⟩
    have hmem0 : hazardRank w0.hazClass ∈
        (zones.filter (fun w => decide (z.geom ∩ w.geom).Nonempty)).map
          (fun w => hazardRank w.hazClass) :=
      List.mem_map_of_mem _ (List.mem_filter.mpr ⟨hw0, by simpa using hne0⟩)
    cases hmx : maxNat? ((zones.filter (fun w => decide (z.geom ∩ w.geom).Nonempty)).map
        (fun w => hazardRank w.hazClass)) with
    | none =>
      exfalso
      rw [maxNat?_eq_none.mp hmx] at hmem0
      cases hmem0
    | some m =>
      refine ⟨m, ?_, ?_, ?_⟩
      · rcases List.mem_map.mp (maxNat?_mem hmx) with ⟨w, hw_filt, hw_eq⟩
        rcases List.mem_filter.mp hw_filt with ⟨hw_mem, hw_dec⟩
        exact ⟨w, hw_mem, by simpa using hw_dec, hw_eq⟩
      · intro w hw hne
        exact maxNat?_le hmx _
          (List.mem_map_of_mem _ (List.mem_filter.mpr ⟨hw, by simpa using hne⟩))
      · have hm5 : m ≤ 5 := by
          rcases List.mem_map.mp (maxNat?_mem hmx) with ⟨w, _, hw_eq⟩
          exact hw_eq ▸ hazardRank_le_five w.hazClass
        rcases inv_hazard_map_roundtrip m hm5 with ⟨s, hs, _⟩
        have hlvl : (buildRow (zipFilter zrows) floods zones z).wildfireLevel = s := by
          show wildfireLevelFor (zipFilter zrows) zones z.zip = s
          unfold wildfireLevelFor
          rw [hsingle, hmx]
          show (inv_hazard_map m).getD "Unknown" = s
          rw [hs]
          rfl
        rw [hlvl]
        exact hs
  · intro hall
    have hfil : zones.filter (fun w => decide (z.geom ∩ w.geom).Nonempty) = [] :=
      List.filter_eq_nil_iff.mpr (fun w hw => by simpa using hall w hw)
    show wildfireLevelFor (zipFilter zrows) zones z.zip = "Unknown"
    unfold wildfireLevelFor
    rw [hsingle, hfil]
    rfl

/-- Witness for C3: a ZIP overlapping a "High" zone and a "Very High"
zone resolves through the maximum rank. -/
theorem wildfire_level_resolution_witness :
    ∃ m : ℕ,
      (∃ w ∈ ([⟨"High", {0}⟩, ⟨"Very High", {1}⟩] : List WildfireZone),
        ((⟨"94601", {0, 1}, 300⟩ : ZipFeature).geom ∩ w.geom).Nonempty ∧
          hazardRank w.hazClass = m) ∧
      (∀ w ∈ ([⟨"High", {0}⟩, ⟨"Very High", {1}⟩] : List WildfireZone),
        ((⟨"94601", {0, 1}, 300⟩ : ZipFeature).geom ∩ w.geom).Nonempty →
          hazardRank w.hazClass ≤ m) ∧
      inv_hazard_map m = some ((buildRow (zipFilter [⟨"94601", {0, 1}, 300⟩]) []
        [⟨"High", {0}⟩, ⟨"Very High", {1}⟩] ⟨"94601", {0, 1}, 300⟩).wildfireLevel) :=
  (wildfire_level_resolution [⟨"94601", {0, 1}, 300⟩] []
    [⟨"High", {0}⟩, ⟨"Very High", {1}⟩] ⟨"94601", {0, 1}, 300⟩
    (by decide) (by decide)).2.2.1 ⟨⟨"High", {0}⟩, by decide, by decide⟩

/-- C9: adding one more intersecting zone whose rank strictly exceeds the
ZIP's current maximum rank makes that zone's rank the new maximum and
strictly raises the resolved hazard level in rank order. -/
theorem wildfire_rank_monotone (fz : List ZipFeature) (zones : List WildfireZone)
    (z : ZipFeature) (w : WildfireZone) (m : ℕ)
    (hnd : (fz.map ZipFeature.zip).Nodup) (hz : z ∈ fz)
    (hint : (z.geom ∩ w.geom).Nonempty)
    (hm : wildfireRankFor fz zones z.zip = some m)
    (hgt : m < hazardRank w.hazClass) :
    wildfireRankFor fz (w :: zones) z.zip = some (hazardRank w.hazClass) ∧
    hazardRank (wildfireLevelFor fz zones z.zip) <
      hazardRank (wildfireLevelFor fz (w :: zones) z.zip) ∧
    inv_hazard_map (hazardRank w.hazClass) =
      some (wildfireLevelFor fz (w :: zones) z.zip) := by
  have h1 := wildfireRankFor_single fz zones z hnd hz
  have h2 := wildfireRankFor_single fz (w :: zones) z hnd hz
  have hfc : (w :: zones).filter (fun w' => decide (z.geom ∩ w'.geom).Nonempty) =
      w :: zones.filter (fun w' => decide (z.geom ∩ w'.geom).Nonempty) :=
    List.filter_cons_of_pos (by simpa using hint)
  have hmx : maxNat? ((zones.filter (fun w' => decide (z.geom ∩ w'.geom).Nonempty)).map
      (fun w' => hazardRank w'.hazClass)) = some m := by
    rw [← h1]
    exact hm
  have hnew : wildfireRankFor fz (w :: zones) z.zip = some (hazardRank w.hazClass) := by
    rw [h2, hfc, List.map_cons]
    exact maxNat?_cons_gt hmx hgt
  have hm5 : m ≤ 5 := le_trans (le_of_lt hgt) (hazardRank_le_five w.hazClass)
  rcases inv_hazard_map_roundtrip m hm5 with ⟨s, hs, hranks⟩
  rcases inv_hazard_map_roundtrip (hazardRank w.hazClass) (hazardRank_le_five w.hazClass)
    with ⟨s2, hs2, hranks2⟩
  have hold : wildfireLevelFor fz zones z.zip = s := by
    unfold wildfireLevelFor
    rw [hm]
    show (inv_hazard_map m).getD "Unknown" = s
    rw [hs]
    rfl
  have hnewlvl : wildfireLevelFor fz (w :: zones) z.zip = s2 := by
    unfold wildfireLevelFor
    rw [hnew]
    show (inv_hazard_map (hazardRank w.hazClass)).getD "Unknown" = s2
    rw [hs2]
    rfl
  refine ⟨hnew, ?_, ?_⟩
  · rw [hold, hnewlvl, hranks, hranks2]
    exact hgt
  · rw [hnewlvl]
    exact hs2

/-- Witness for C9: adding a "High" zone to a ZIP whose current maximum
is "Moderate" raises the resolved level. -/
theorem wildfire_rank_monotone_witness :
    wildfireRankFor [⟨"94501", {0}, 0⟩]
      ((⟨"High", {0}⟩ : WildfireZone) :: [⟨"Moderate", {0}⟩])
      (⟨"94501", {0}, 0⟩ : ZipFeature).zip =
      some (hazardRank (⟨"High", {0}⟩ : WildfireZone).hazClass) ∧
    hazardRank (wildfireLevelFor [⟨"94501", {0}, 0⟩] [⟨"Moderate", {0}⟩]
        (⟨"94501", {0}, 0⟩ : ZipFeature).zip) <
      hazardRank (wildfireLevelFor [⟨"94501", {0}, 0⟩]
        ((⟨"High", {0}⟩ : WildfireZone) :: [⟨"Moderate", {0}⟩])
        (⟨"94501", {0}, 0⟩ : ZipFeature).zip) ∧
    inv_hazard_map (hazardRank (⟨"High", {0}⟩ : WildfireZone).hazClass) =
      some (wildfireLevelFor [⟨"94501", {0}, 0⟩]
        ((⟨"High", {0}⟩ : WildfireZone) :: [⟨"Moderate", {0}⟩])
        (⟨"94501", {0}, 0⟩ : ZipFeature).zip) :=
  wildfire_rank_monotone [⟨"94501", {0}, 0⟩] [⟨"Moderate", {0}⟩]
    ⟨"94501", {0}, 0⟩ ⟨"High", {0}⟩ 3
    (by decide) (by decide) (by decide) (by decide) (by decide)

/-- C4 counterexample: with an empty ZIP source no row exists for the
allow-list ZIP "94501", and with a duplicated "94501" feature the output
carries two rows for it and non-unique identifiers — so exactly-one-row
and post-filter uniqueness do not hold unconditionally. -/
theorem allowlist_row_uniqueness_cex :
    "94501" ∈ alameda_zips ∧
    (¬ ∃ rec ∈ masterTable [] [] [], rec.zip = "94501") ∧
    ((masterTable [⟨"94501", ∅, 0⟩, ⟨"94501", ∅, 0⟩] [] []).map ZipRiskRecord.zip).count
      "94501" = 2 ∧
    ¬ ((masterTable [⟨"94501", ∅, 0⟩, ⟨"94501", ∅, 0⟩] [] []).map ZipRiskRecord.zip).Nodup := by
  refine ⟨by decide, by decide, by decide, by decide⟩

/-- C4 amended: every output row's ZIP is in the allow-list; the output
ZIP column is the input ZIP column filtered to the allow-list in source
order; hence ZIP identifiers are unique after filtering whenever the raw
source's are, and each allow-list ZIP occurring exactly once in the raw
source yields exactly one output row. -/
theorem allowlist_row_uniqueness (zrows : List ZipFeature) (floods : List FloodFeature)
    (zones : List WildfireZone) :
    (∀ rec ∈ masterTable zrows floods zones, rec.zip ∈ alameda_zips) ∧
    ((masterTable zrows floods zones).map ZipRiskRecord.zip =
      (zrows.map ZipFeature.zip).filter (fun c => decide (c ∈ alameda_zips))) ∧
    ((zrows.map ZipFeature.zip).Nodup →
      ((masterTable zrows floods zones).map ZipRiskRecord.zip).Nodup) ∧
    (∀ code ∈ alameda_zips, (zrows.map ZipFeature.zip).count code = 1 →
      ((masterTable zrows floods zones).map ZipRiskRecord.zip).count code = 1) := by
  have hmt : masterTable zrows floods zones =
      (zipFilter zrows).map (buildRow (zipFilter zrows) floods zones) := rfl
  have hkey : (masterTable zrows floods zones).map ZipRiskRecord.zip =
      (zrows.map ZipFeature.zip).filter (fun c => decide (c ∈ alameda_zips)) := by
    rw [hmt, List.map_map]
    have hcomp : (ZipRiskRecord.zip ∘
        buildRow (zipFilter zrows) floods zones) = ZipFeature.zip :=
      funext (fun x => rfl)
    rw [hcomp]
    unfold zipFilter
    rw [show (zrows.filter (fun r => decide (r.zip ∈ alameda_zips))) =
      zrows.filter ((fun c => decide (c ∈ alameda_zips)) ∘ ZipFeature.zip) from rfl]
    exact (List.filter_map ZipFeature.zip zrows).symm
  refine ⟨?_, hkey, ?_, ?_⟩
  · intro rec hrec
    have hmem : rec.zip ∈ (masterTable zrows floods zones).map ZipRiskRecord.zip :=
      List.mem_map_of_mem _ hrec
    rw [hkey] at hmem
    simpa using List.of_mem_filter hmem
  · intro hnd
    rw [hkey]
    exact hnd.filter _
  · intro code hcode hcount
    rw [hkey, List.count_filter (by simpa using hcode)]
    exact hcount

/-- Witness for C4 amended: a raw source holding "94601" exactly once
yields exactly one output row for it, with unique identifiers. -/
theorem allowlist_row_uniqueness_witness :
    ((masterTable [⟨"94601", ∅, 0⟩] [] []).map ZipRiskRecord.zip).count "94601" = 1 ∧
    ((masterTable [⟨"94601", ∅, 0⟩] [] []).map ZipRiskRecord.zip).Nodup :=
  ⟨(allowlist_row_uniqueness [⟨"94601", ∅, 0⟩] [] []).2.2.2 "94601" (by decide) (by decide),
   (allowlist_row_uniqueness [⟨"94601", ∅, 0⟩] [] []).2.2.1 (by decide)⟩

/-- C5 counterexample: a successful run writes the artifact by one direct
write to the output path — its trace contains the write but no rename, so
the overwrite is not an atomic write-then-rename publication. -/
theorem writer_not_write_then_rename :
    (runPipeline ⟨some ⟨true, true, []⟩, some [], some ⟨true, []⟩, some (), true⟩).1 = none ∧
    FsOp.write OUTPUT_CSV (writeCsv (masterTable [] [] [])) ∈
      (runPipeline ⟨some ⟨true, true, []⟩, some [], some ⟨true, []⟩, some (), true⟩).2 ∧
    ¬ writeThenRename
      (runPipeline ⟨some ⟨true, true, []⟩, some [], some ⟨true, []⟩, some (), true⟩).2 := by
  refine ⟨rfl, ?_, ?_⟩
  · show FsOp.write OUTPUT_CSV (writeCsv (masterTable [] [] [])) ∈
      [FsOp.mkdirOutput, FsOp.write OUTPUT_CSV (writeCsv (masterTable [] [] []))]
    exact List.mem_cons_of_mem _ (List.mem_singleton.mpr rfl)
  · rintro ⟨tmp, content, hne, hw, hr⟩
    have hr2 : FsOp.rename tmp OUTPUT_CSV ∈
        [FsOp.mkdirOutput, FsOp.write OUTPUT_CSV (writeCsv (masterTable [] [] []))] := hr
    simp at hr2

/-- C5 amended: the Table Writer overwrites the artifact with a single
direct write to the output path, never renaming; every fatal error aborts
the run before any write, so a failed run leaves no new output, while a
successful run's trace is exactly the directory creation followed by the
one write of the complete table. -/
theorem writer_single_direct_write (inp : PipelineInput) :
    ((runPipeline inp).1 ≠ none →
      ∀ (p : String) (c : List (List String)), FsOp.write p c ∉ (runPipeline inp).2) ∧
    ((runPipeline inp).1 = none →
      ∃ tbl, (runPipeline inp).2 = [FsOp.mkdirOutput, FsOp.write OUTPUT_CSV tbl]) ∧
    (∀ (a b : String), FsOp.rename a b ∉ (runPipeline inp).2) := by
  rcases runPipeline_cases inp with ⟨h1, tbl, h2⟩ | ⟨h1, h2⟩
  · refine ⟨fun hne => absurd h1 hne, fun _ => ⟨tbl, h2⟩, fun a b hmem => ?_⟩
    rw [h2] at hmem
    simp at hmem
  · refine ⟨fun _ p c hmem => ?_, fun h0 => absurd h0 h1, fun a b hmem => ?_⟩ <;>
      rw [h2] at hmem <;> simp at hmem

/-- Witness for C5 amended: a run aborted by a missing `HAZ_CLASS` column
performs no write at all, and a successful run's trace is the directory
creation followed by the single artifact write. -/
theorem writer_single_direct_write_witness :
    (∀ (p : String) (c : List (List String)), FsOp.write p c ∉
      (runPipeline ⟨some ⟨true, true, []⟩, some [], some ⟨false, []⟩, some (), true⟩).2) ∧
    ∃ tbl, (runPipeline ⟨some ⟨true, true, [⟨"94501", ∅, 0⟩]⟩, some [], some ⟨true, []⟩,
      some (), true⟩).2 = [FsOp.mkdirOutput, FsOp.write OUTPUT_CSV tbl] :=
  ⟨(writer_single_direct_write
      ⟨some ⟨true, true, []⟩, some [], some ⟨false, []⟩, some (), true⟩).1 (by decide),
   (writer_single_direct_write
      ⟨some ⟨true, true, [⟨"94501", ∅, 0⟩]⟩, some [], some ⟨true, []⟩, some (), true⟩).2.1 rfl⟩

/-- C8: the Table Writer serializes exactly the ten contract columns in
order, one data row per merged ZIP record, each row carrying ten cells
whose first is the record's ZIP string written verbatim (so any leading
zeros are preserved and the value is never numeric). -/
theorem writer_column_contract (zrows : List ZipFeature) (floods : List FloodFeature)
    (zones : List WildfireZone) :
    output_columns = ["ZIP", "Earthquake_Risk_Score", "Earthquake_Risk_Explanation",
      "Flood_Control_District", "Wildfire_Hazard_Level", "Flood_Risk_Score",
      "Flood_Risk_Explanation", "Flood_Chatbot_Prompt", "Wildfire_Risk_Score",
      "Wildfire_Chatbot_Prompt"] ∧
    writeCsv (masterTable zrows floods zones) =
      output_columns :: (masterTable zrows floods zones).map csvRow ∧
    (masterTable zrows floods zones).length = (zipFilter zrows).length ∧
    ∀ rec : ZipRiskRecord,
      csvRow rec = [rec.zip, toString rec.eqScore, rec.eqExpl, rec.floodDistrict,
        rec.wildfireLevel, toString rec.floodScore, rec.floodExpl, rec.floodPrompt,
        toString rec.wildfireScore, rec.wildfirePrompt] ∧
      (csvRow rec).length = output_columns.length ∧
      (csvRow rec).head? = some rec.zip := by
  refine ⟨rfl, rfl, ?_, fun rec => ⟨rfl, rfl, rfl⟩⟩
  simp [masterTable]

/-- C10: when the dominant district's id coerces to an integer absent
from the flood lookup table, the row gets flood score 0 and the
"Flood risk unknown." explanation while `Flood_Control_District` keeps
the genuine district name — score 0 does not imply the label is
"UNKNOWN". -/
theorem flood_lookup_miss_keeps_name (fz : List ZipFeature) (floods : List FloodFeature)
    (zones : List WildfireZone) (z : ZipFeature) (r : FloodRow) (k : Int)
    (hdom : dominantFor (floodOverlay fz floods) z.zip = some r)
    (hk : pyInt r.distId = some k)
    (hmiss : flood_risk_map_by_id k = none) :
    (buildRow fz floods zones z).floodScore = 0 ∧
    (buildRow fz floods zones z).floodExpl = "Flood risk unknown." ∧
    (buildRow fz floods zones z).floodDistrict = r.distName ∧
    (r.distName ≠ "UNKNOWN" → (buildRow fz floods zones z).floodDistrict ≠ "UNKNOWN") := by
  have hcols := flood_cols_some hdom
  have hinfo : get_flood_risk_info_by_id (floodIdFor fz floods z.zip) = floodUnknownInfo := by
    rw [hcols.2]
    unfold get_flood_risk_info_by_id
    rw [hk]
    show (flood_risk_map_by_id k).getD floodUnknownInfo = floodUnknownInfo
    rw [hmiss]
    rfl
  refine ⟨?_, ?_, hcols.1, fun hne => ?_⟩
  · show (get_flood_risk_info_by_id (floodIdFor fz floods z.zip)).score = 0
    rw [hinfo]
    rfl
  · show (get_flood_risk_info_by_id (floodIdFor fz floods z.zip)).explanation =
      "Flood risk unknown."
    rw [hinfo]
    rfl
  · show floodNameFor fz floods z.zip ≠ "UNKNOWN"
    rw [hcols.1]
    exact hne

/-- Witness for C10: a dominant district with id 999 — absent from the
lookup table — keeps its name "Zone X" while scoring 0. -/
theorem flood_lookup_miss_keeps_name_witness :
    (buildRow [⟨"94501", {0}, 600⟩] [⟨"Zone X", CellValue.intVal 999, {0}⟩] []
      ⟨"94501", {0}, 600⟩).floodScore = 0 ∧
    (buildRow [⟨"94501", {0}, 600⟩] [⟨"Zone X", CellValue.intVal 999, {0}⟩] []
      ⟨"94501", {0}, 600⟩).floodExpl = "Flood risk unknown." ∧
    (buildRow [⟨"94501", {0}, 600⟩] [⟨"Zone X", CellValue.intVal 999, {0}⟩] []
      ⟨"94501", {0}, 600⟩).floodDistrict = "Zone X" ∧
    (buildRow [⟨"94501", {0}, 600⟩] [⟨"Zone X", CellValue.intVal 999, {0}⟩] []
      ⟨"94501", {0}, 600⟩).floodDistrict ≠ "UNKNOWN" := by
  have h := flood_lookup_miss_keeps_name [⟨"94501", {0}, 600⟩]
    [⟨"Zone X", CellValue.intVal 999, {0}⟩] [] ⟨"94501", {0}, 600⟩
    ⟨"94501", "Zone X", CellValue.intVal 999, 1⟩ 999 (by decide) (by decide) (by decide)
  exact ⟨h.1, h.2.1, h.2.2.1, h.2.2.2 (by decide)⟩
